import Mathlib

/-!
Verification of the `python3-dll-a` import-library generator (`src/lib.rs`).

The Rust crate is embedded shallowly:

* `Command` models `std::process::Command` as a program name plus an ordered
  argument vector.
* The host environment (the `ZIG_COMMAND` environment variable, the host OS
  family selected by `#[cfg(windows)]`, the `cc::windows_registry::find`
  lookup, and the outcome of spawning a child process) is an explicit
  `Host` record threaded through the functions that consult it.
* The filesystem is an explicit `FS` value: a list of created directories and
  an append-only association list of written files (a later entry shadows an
  earlier one with the same path, modelling overwrite).
* `std::io::Error` is a `kind` plus a message string; the `{:?}` rendering of
  a `Command` and the `{}` rendering of spawn errors and exit statuses are
  modelled by explicit rendering functions.

Paths are strings; `Path::push` inserts a `/` separator and `Path::display`
is the identity, which is faithful for the Unicode paths the claims concern.
-/

/-- Import library file extension for the GNU environment ABI (MinGW-w64). -/
def IMPLIB_EXT_GNU : String := ".dll.a"

/-- Import library file extension for the MSVC environment ABI. -/
def IMPLIB_EXT_MSVC : String := ".lib"

/-- Canonical MinGW-w64 `dlltool` program name. -/
def DLLTOOL_GNU : String := "x86_64-w64-mingw32-dlltool"

/-- Canonical MinGW-w64 `dlltool` program name (32-bit version). -/
def DLLTOOL_GNU_32 : String := "i686-w64-mingw32-dlltool"

/-- Canonical `dlltool` program name for the MSVC environment ABI (LLVM dlltool). -/
def DLLTOOL_MSVC : String := "llvm-dlltool"

/-- Canonical `lib` program name for the MSVC environment ABI (MSVC lib.exe). -/
def LIB_MSVC : String := "lib.exe"

/-- Filesystem paths (`std::path::Path`), modelled as strings. -/
abbrev FilePathStr : Type := String

/-- Model of `Path::push`: append one component, inserting a separator. -/
def pathPush (p : FilePathStr) (component : String) : FilePathStr :=
  String.append (String.append p "/") component

/-- Model of `Path::display`: render a path for interpolation into a string. -/
def pathDisplay (p : FilePathStr) : String := p

/-- Model of `std::process::Command`: a program plus its ordered argument vector. -/
structure Command where
  program : String
  args : List String
deriving DecidableEq, Repr

/-- Model of `Command::new`: a command with an empty argument vector. -/
def Command.new (program : String) : Command :=
  ⟨program, []⟩

/-- Model of `Command::arg`: append one argument. -/
def Command.arg (c : Command) (a : String) : Command :=
  ⟨c.program, c.args ++ [a]⟩

/-- The `{:?}` (Debug) rendering of a `Command`, modelled as the program
followed by its arguments separated by spaces. -/
def commandDebug (c : Command) : String :=
  String.intercalate " " (c.program :: c.args)

/-- Model of `std::io::ErrorKind` (the kinds relevant to this crate). -/
inductive ErrorKind where
  | other
  | notFound
  | permissionDenied
deriving DecidableEq, Repr

/-- Model of `std::io::Error`: an error kind plus a message. -/
structure IoError where
  kind : ErrorKind
  msg : String
deriving DecidableEq, Repr

/-- An OS-level error returned when a child process fails to start:
its `ErrorKind` and its `{}` (Display) rendering. -/
structure OsError where
  kind : ErrorKind
  display : String
deriving DecidableEq, Repr

/-- Model of `std::process::ExitStatus`: whether `success()` holds, plus its
`{}` (Display) rendering. -/
structure ExitStatus where
  success : Bool
  display : String
deriving DecidableEq, Repr

/-- Outcome of `Command::status()`: the spawn failed, or the child exited. -/
inductive SpawnOutcome where
  | startFailure (e : OsError)
  | exited (st : ExitStatus)
deriving DecidableEq, Repr

/-- The host environment consulted by the crate: the `ZIG_COMMAND`
environment variable, whether the host is Windows (`#[cfg(windows)]`),
the `cc::windows_registry::find` lookup, and the result of running a
spawned command. -/
structure Host where
  zig_command : Option String
  windows : Bool
  registry_find : String → String → Option Command
  run : Command → SpawnOutcome

/-- Modelled from the spec: the embedded `.def` definition assets
(`include_str!("python3.def")` and friends) are files of this repository
that are not under `src/`; the spec treats each as an opaque fixed blob,
so they are modelled as an enumeration of six distinct opaque contents. -/
inductive DefBlob where
  | python3
  | python37
  | python38
  | python39
  | python310
  | python311
deriving DecidableEq, Repr

/-- The filesystem state: directories created so far and files written so
far. Files form an append-only association list; the most recent entry for
a path shadows older ones (overwrite semantics). -/
structure FS where
  dirs : List FilePathStr
  files : List (FilePathStr × DefBlob)
deriving DecidableEq, Repr

/-- Model of `create_dir_all`: record the directory as created. -/
def create_dir_all (fs : FS) (p : FilePathStr) : FS :=
  ⟨p :: fs.dirs, fs.files⟩

/-- Model of `std::fs::write`: record the file contents under the path. -/
def fsWrite (fs : FS) (p : FilePathStr) (content : DefBlob) : FS :=
  ⟨fs.dirs, (p, content) :: fs.files⟩

/-- Read back a written file (most recent write wins). -/
def fsRead (fs : FS) (p : FilePathStr) : Option DefBlob :=
  (fs.files.find? (fun e => e.1 = p)).map (fun e => e.2)

/-- Model of `ImportLibraryGenerator`: compile target architecture, environment ABI
and optional Python version. -/
structure ImportLibraryGenerator where
  arch : String
  env : String
  version : Option (Nat × Nat)
deriving DecidableEq, Repr

/-- Model of `ImportLibraryGenerator::new`: version defaults to `None`. -/
def ImportLibraryGenerator.new (arch env : String) : ImportLibraryGenerator :=
  ⟨arch, env, none⟩

/-- Model of `char::is_ascii_whitespace`: space, horizontal tab, line feed,
form feed or carriage return. -/
def Char.isAsciiWhitespace (c : Char) : Bool :=
  c = ' ' || c = '\t' || c = '\n' || c = '\x0c' || c = '\r'

/-- Tokenizer underlying `str::split_ascii_whitespace`: accumulate the
current token (reversed) and emit it at each whitespace boundary. -/
def splitAsciiWhitespaceAux : List Char → List Char → List String
  | [], [] => []
  | [], cur => [String.mk cur.reverse]
  | c :: cs, cur =>
    if c.isAsciiWhitespace then
      match cur with
      | [] => splitAsciiWhitespaceAux cs []
      | _ => String.mk cur.reverse :: splitAsciiWhitespaceAux cs []
    else
      splitAsciiWhitespaceAux cs (c :: cur)

/-- Model of `str::split_ascii_whitespace`, collected to a list of tokens. -/
def splitAsciiWhitespace (s : String) : List String :=
  splitAsciiWhitespaceAux s.data []

/-- Model of `find_zig`: returns the `zig` wrapper command parsed from the
`ZIG_COMMAND` environment variable, or `none`. -/
def find_zig (host : Host) : Option Command :=
  match host.zig_command with
  | none => none
  | some zig_command =>
    match splitAsciiWhitespace zig_command with
    | [] => none
    | prog :: rest => some ⟨prog, rest⟩

/-- Model of `find_lib_exe`: on Windows, translate the architecture to a full MSVC
target triple and look up `lib.exe` in the Visual Studio registry; on any
other host (`#[cfg(not(windows))]`), return `none` unconditionally. -/
def find_lib_exe (host : Host) (arch : String) : Option Command :=
  if host.windows then
    match arch with
    | "x86_64" => host.registry_find "x86_64-pc-windows-msvc" LIB_MSVC
    | "x86" => host.registry_find "i686-pc-windows-msvc" LIB_MSVC
    | "aarch64" => host.registry_find "aarch64-pc-windows-msvc" LIB_MSVC
    | _ => none
  else
    none

/-- The LLVM-family machine identifier translation (`find_for_target`,
first `match arch` block): unknown architectures pass through unchanged. -/
def machineLlvm (arch : String) : String :=
  match arch with
  | "x86_64" => "i386:x86-64"
  | "x86" => "i386"
  | "aarch64" => "arm64"
  | arch => arch

/-- The MSVC-family machine identifier translation (`find_for_target`,
inner `match arch` block of the `lib.exe` branch): unknown architectures
pass through unchanged. -/
def machineMsvc (arch : String) : String :=
  match arch with
  | "x86_64" => "X64"
  | "x86" => "X86"
  | "aarch64" => "ARM64"
  | arch => arch

/-- Model of `DllToolCommand`: the four `dlltool` flavors. -/
inductive DllToolCommand where
  | mingw (command : Command)
  | llvm (command : Command) (machine : String)
  | libExe (command : Command) (machine : String)
  | zig (command : Command) (machine : String)
deriving DecidableEq, Repr

/-- Model of `DllToolCommand::find_for_target`: choose the best `dlltool` flavor for
the compile target, given the host environment. -/
def DllToolCommand.find_for_target (host : Host) (arch env : String) :
    Except IoError DllToolCommand :=
  let machine := machineLlvm arch
  match find_zig host with
  | some command => Except.ok (DllToolCommand.zig command machine)
  | none =>
    match arch, env with
    | "x86_64", "gnu" => Except.ok (DllToolCommand.mingw (Command.new DLLTOOL_GNU))
    | "x86", "gnu" => Except.ok (DllToolCommand.mingw (Command.new DLLTOOL_GNU_32))
    | _, "msvc" =>
      match find_lib_exe host arch with
      | some command => Except.ok (DllToolCommand.libExe command (machineMsvc arch))
      | none => Except.ok (DllToolCommand.llvm (Command.new DLLTOOL_MSVC) machine)
    | _, _ =>
      Except.error ⟨ErrorKind.other,
        String.append (String.append (String.append (String.append
          "Unsupported target arch '" arch) "' or env ABI '") env) "'"⟩

/-- Model of `DllToolCommand::build`: append the flavor-specific argument layout. -/
def DllToolCommand.build (self : DllToolCommand) (defpath libpath : FilePathStr) :
    Command :=
  match self with
  | DllToolCommand.mingw command =>
    (((command.arg "--input-def").arg defpath).arg "--output-lib").arg libpath
  | DllToolCommand.llvm command machine =>
    (((((command.arg "-m").arg machine).arg "-d").arg defpath).arg "-l").arg libpath
  | DllToolCommand.libExe command machine =>
    ((command.arg (String.append "/MACHINE:" machine)).arg
        (String.append "/DEF:" (pathDisplay defpath))).arg
      (String.append "/OUT:" (pathDisplay libpath))
  | DllToolCommand.zig command machine =>
    ((((((command.arg "dlltool").arg "-m").arg machine).arg "-d").arg
        defpath).arg "-l").arg libpath

/-- The version match at the head of `write_def_file`: the embedded
definition asset (file name and content) for each supported version, `none`
for every other version. -/
def def_asset (version : Option (Nat × Nat)) : Option (String × DefBlob) :=
  match version with
  | none => some ("python3.def", DefBlob.python3)
  | some (3, 7) => some ("python37.def", DefBlob.python37)
  | some (3, 8) => some ("python38.def", DefBlob.python38)
  | some (3, 9) => some ("python39.def", DefBlob.python39)
  | some (3, 10) => some ("python310.def", DefBlob.python310)
  | some (3, 11) => some ("python311.def", DefBlob.python311)
  | some _ => none

/-- Model of `ImportLibraryGenerator::write_def_file`: select the embedded definition
asset for the requested version, write it into `out_dir`, and return its
path; unsupported versions fail with the fixed message. -/
def ImportLibraryGenerator.write_def_file (g : ImportLibraryGenerator)
    (out_dir : FilePathStr) (fs : FS) : Except IoError (FilePathStr × FS) :=
  match def_asset g.version with
  | none => Except.error ⟨ErrorKind.other, "Unsupported Python version"⟩
  | some (def_file, def_file_content) =>
    let defpath := pathPush out_dir def_file
    Except.ok (defpath, fsWrite fs defpath def_file_content)

/-- Model of `ImportLibraryGenerator::implib_file_path`: the import library file name
under `out_dir`, as a pure function of the environment ABI and version. -/
def ImportLibraryGenerator.implib_file_path (g : ImportLibraryGenerator)
    (out_dir : FilePathStr) : FilePathStr :=
  let libext := if g.env = "msvc" then IMPLIB_EXT_MSVC else IMPLIB_EXT_GNU
  let libname :=
    match g.version with
    | some (major, minor) =>
      String.append (String.append (String.append "python" (toString major))
        (toString minor)) libext
    | none => String.append "python3" libext
  pathPush out_dir libname

deriving instance DecidableEq for Except

/-- The result of one `generate` call: the returned `Result`, the final
filesystem state, and the list of child-process invocations attempted. -/
structure GenerateResult where
  result : Except IoError Unit
  fs : FS
  spawned : List Command
deriving DecidableEq, Repr

/-- Model of `ImportLibraryGenerator::generate`: create the output directory, write
the definition file, resolve the `dlltool` flavor, build the command, run
it, and interpret the exit status. -/
def ImportLibraryGenerator.generate (g : ImportLibraryGenerator) (host : Host)
    (out_dir : FilePathStr) (fs : FS) : GenerateResult :=
  let fs1 := create_dir_all fs out_dir
  match g.write_def_file out_dir fs1 with
  | Except.error e => ⟨Except.error e, fs1, []⟩
  | Except.ok (defpath, fs2) =>
    let implib_file := g.implib_file_path out_dir
    match DllToolCommand.find_for_target host g.arch g.env with
    | Except.error e => ⟨Except.error e, fs2, []⟩
    | Except.ok dlltool_command =>
      let command := dlltool_command.build defpath implib_file
      match host.run command with
      | SpawnOutcome.startFailure e =>
        ⟨Except.error ⟨e.kind,
            String.append (String.append (commandDebug command) " failed with ")
              e.display⟩,
          fs2, [command]⟩
      | SpawnOutcome.exited status =>
        if status.success then
          ⟨Except.ok (), fs2, [command]⟩
        else
          ⟨Except.error ⟨ErrorKind.other,
              String.append (String.append (commandDebug command) " failed with ")
                status.display⟩,
            fs2, [command]⟩

/-- Model of `generate_implib_for_target`: the crate-level convenience entry point. -/
def generate_implib_for_target (host : Host) (out_dir : FilePathStr)
    (arch env : String) (fs : FS) : GenerateResult :=
  (ImportLibraryGenerator.new arch env).generate host out_dir fs

/-! ## Auxiliary definitions and shared lemmas for the verification -/

/-- The versions accepted by `write_def_file`: `None` plus 3.7 through 3.11. -/
def supportedVersions : List (Option (Nat × Nat)) :=
  [none, some (3, 7), some (3, 8), some (3, 9), some (3, 10), some (3, 11)]

/-- A plain host: `ZIG_COMMAND` unset, not Windows, no registry hits, and
every spawned tool exits successfully. -/
def hostPlain : Host :=
  ⟨none, false, fun _ _ => none, fun _ => SpawnOutcome.exited ⟨true, "exit status: 0"⟩⟩

/-- The empty filesystem. -/
def fsEmpty : FS := ⟨[], []⟩

/-- Versions outside the supported set have no definition asset. -/
theorem def_asset_eq_none (v : Option (Nat × Nat)) (h : v ∉ supportedVersions) :
    def_asset v = none := by
  unfold def_asset
  split
  all_goals simp_all [supportedVersions]

/-- Model of `write_def_file` fails with the fixed message on unsupported versions. -/
theorem write_def_file_not_supported_aux (g : ImportLibraryGenerator)
    (out_dir : FilePathStr) (fs : FS) (h : g.version ∉ supportedVersions) :
    g.write_def_file out_dir fs
      = Except.error ⟨ErrorKind.other, "Unsupported Python version"⟩ := by
  unfold ImportLibraryGenerator.write_def_file
  rw [def_asset_eq_none g.version h]

/-! ## Claim theorems -/

/-- C2: whenever `ZIG_COMMAND` is set to a string that tokenizes to at least
one ASCII-whitespace-separated token, `find_for_target` returns the Zig
wrapper variant — program from the first token, leading arguments from the
remaining tokens, machine identifier from the LLVM-family translation —
for every architecture and environment ABI, including combinations that
would otherwise be unsupported. -/
theorem find_for_target_zig_override (host : Host) (arch env s prog : String)
    (rest : List String) (hz : host.zig_command = some s)
    (ht : splitAsciiWhitespace s = prog :: rest) :
    DllToolCommand.find_for_target host arch env
      = Except.ok (DllToolCommand.zig ⟨prog, rest⟩ (machineLlvm arch)) := by
  unfold DllToolCommand.find_for_target
  simp [find_zig, hz, ht]

/-- Witness for C2: with `ZIG_COMMAND` set to `"python3 -m ziglang"`, even
the otherwise-unsupported `("mips", "linux")` target resolves to the Zig
wrapper with program `python3` and arguments `["-m", "ziglang"]`. -/
theorem find_for_target_zig_override_witness :
    DllToolCommand.find_for_target
        ⟨some "python3 -m ziglang", false, fun _ _ => none,
          fun _ => SpawnOutcome.exited ⟨true, "exit status: 0"⟩⟩
        "mips" "linux"
      = Except.ok (DllToolCommand.zig ⟨"python3", ["-m", "ziglang"]⟩ "mips") :=
  find_for_target_zig_override _ "mips" "linux" "python3 -m ziglang" "python3"
    ["-m", "ziglang"] rfl (by decide)

/-- C10: if `ZIG_COMMAND` is set but tokenizes to zero tokens (empty or all
ASCII whitespace), `find_zig` returns no command and `find_for_target`
behaves exactly as it does with the variable unset. -/
theorem find_zig_empty_override_ignored (host : Host) (s : String)
    (hz : host.zig_command = some s) (ht : splitAsciiWhitespace s = []) :
    find_zig host = none ∧
    ∀ arch env, DllToolCommand.find_for_target host arch env
      = DllToolCommand.find_for_target
          ⟨none, host.windows, host.registry_find, host.run⟩ arch env := by
  have hfz : find_zig host = none := by simp [find_zig, hz, ht]
  refine ⟨hfz, fun arch env => ?_⟩
  unfold DllToolCommand.find_for_target
  rw [hfz]
  have hfz2 : find_zig ⟨none, host.windows, host.registry_find, host.run⟩ = none := rfl
  rw [hfz2]
  rfl

/-- Witness for C10: with `ZIG_COMMAND` set to `"  \t "`, `find_zig` finds
nothing and the `("x86_64", "gnu")` target resolves exactly as with the
variable unset. -/
theorem find_zig_empty_override_ignored_witness :
    find_zig ⟨some "  \t ", false, fun _ _ => none,
        fun _ => SpawnOutcome.exited ⟨true, "exit status: 0"⟩⟩ = none ∧
    DllToolCommand.find_for_target
        ⟨some "  \t ", false, fun _ _ => none,
          fun _ => SpawnOutcome.exited ⟨true, "exit status: 0"⟩⟩ "x86_64" "gnu"
      = DllToolCommand.find_for_target
          ⟨none, false, fun _ _ => none,
            fun _ => SpawnOutcome.exited ⟨true, "exit status: 0"⟩⟩ "x86_64" "gnu" := by
  have h := find_zig_empty_override_ignored
    ⟨some "  \t ", false, fun _ _ => none,
      fun _ => SpawnOutcome.exited ⟨true, "exit status: 0"⟩⟩ "  \t " rfl (by decide)
  exact ⟨h.1, h.2 "x86_64" "gnu"⟩

/-- C6: the machine-identifier translation tables: the LLVM/MinGW/Zig family
maps `x86_64`, `x86`, `aarch64` to `i386:x86-64`, `i386`, `arm64`; the
vendor `lib.exe` family maps them to `X64`, `X86`, `ARM64`; every other
architecture string passes through unchanged under both translations. -/
theorem machine_id_translation :
    machineLlvm "x86_64" = "i386:x86-64" ∧
    machineLlvm "x86" = "i386" ∧
    machineLlvm "aarch64" = "arm64" ∧
    machineMsvc "x86_64" = "X64" ∧
    machineMsvc "x86" = "X86" ∧
    machineMsvc "aarch64" = "ARM64" ∧
    ∀ arch : String, arch ≠ "x86_64" → arch ≠ "x86" → arch ≠ "aarch64" →
      machineLlvm arch = arch ∧ machineMsvc arch = arch := by
  refine ⟨rfl, rfl, rfl, rfl, rfl, rfl, fun arch h1 h2 h3 => ⟨?_, ?_⟩⟩
  · unfold machineLlvm
    split
    · exact absurd rfl h1
    · exact absurd rfl h2
    · exact absurd rfl h3
    · rfl
  · unfold machineMsvc
    split
    · exact absurd rfl h1
    · exact absurd rfl h2
    · exact absurd rfl h3
    · rfl

/-- Witness for C6: the unknown architecture `mips` passes through unchanged
under both translations. -/
theorem machine_id_translation_witness :
    machineLlvm "mips" = "mips" ∧ machineMsvc "mips" = "mips" :=
  machine_id_translation.2.2.2.2.2.2 "mips" (by decide) (by decide) (by decide)

/-- C7: `DllToolCommand::build` appends exactly the documented ordered
argument vector of each flavor to the resolved command: MinGW appends
`--input-def d --output-lib l`; LLVM appends `-m machine -d d -l l`;
`lib.exe` appends `/MACHINE:machine /DEF:d /OUT:l` with the paths rendered
via `Path::display`; Zig appends the leading token `dlltool` followed by
the LLVM argument vector. Paths stay discrete vector entries. -/
theorem dlltool_build_args (c : Command) (m : String) (d l : FilePathStr) :
    DllToolCommand.build (DllToolCommand.mingw c) d l
      = ⟨c.program, c.args ++ ["--input-def", d, "--output-lib", l]⟩ ∧
    DllToolCommand.build (DllToolCommand.llvm c m) d l
      = ⟨c.program, c.args ++ ["-m", m, "-d", d, "-l", l]⟩ ∧
    DllToolCommand.build (DllToolCommand.libExe c m) d l
      = ⟨c.program, c.args ++
          [String.append "/MACHINE:" m, String.append "/DEF:" (pathDisplay d),
            String.append "/OUT:" (pathDisplay l)]⟩ ∧
    DllToolCommand.build (DllToolCommand.zig c m) d l
      = ⟨c.program, c.args ++ ["dlltool", "-m", m, "-d", d, "-l", l]⟩ := by
  refine ⟨?_, ?_, ?_, ?_⟩ <;> simp [DllToolCommand.build, Command.arg]

/-- C8: the import library file name is a pure function of the environment
ABI and the version: the extension is `.lib` exactly when the environment
ABI is `msvc` and `.dll.a` otherwise; the base name is `python3` without a
version and `python{major}{minor}` with one. -/
theorem implib_file_path_spec (g : ImportLibraryGenerator) (out : FilePathStr) :
    (g.version = none →
      g.implib_file_path out
        = pathPush out (String.append "python3"
            (if g.env = "msvc" then ".lib" else ".dll.a"))) ∧
    (∀ major minor : Nat, g.version = some (major, minor) →
      g.implib_file_path out
        = pathPush out (String.append (String.append (String.append
            "python" (toString major)) (toString minor))
            (if g.env = "msvc" then ".lib" else ".dll.a"))) ∧
    ((if g.env = "msvc" then ".lib" else ".dll.a")
        = ".lib" ↔ g.env = "msvc") := by
  refine ⟨fun hv => ?_, fun major minor hv => ?_, ?_⟩
  · unfold ImportLibraryGenerator.implib_file_path
    rw [hv]
    unfold IMPLIB_EXT_MSVC IMPLIB_EXT_GNU
    split <;> rfl
  · unfold ImportLibraryGenerator.implib_file_path
    rw [hv]
    unfold IMPLIB_EXT_MSVC IMPLIB_EXT_GNU
    split <;> rfl
  · constructor
    · intro h
      by_contra hne
      rw [if_neg hne] at h
      exact absurd h (by decide)
    · intro h
      rw [if_pos h]

/-- Witness for C8: for the `msvc` ABI and version 3.10 the artifact is
`out/python310.lib`. -/
theorem implib_file_path_spec_witness :
    (ImportLibraryGenerator.mk "x86_64" "msvc" (some (3, 10))).implib_file_path
        "out" = pathPush "out" (String.append (String.append (String.append
          "python" (toString 3)) (toString 10))
          (if ("msvc" : String) = "msvc" then ".lib" else ".dll.a")) :=
  (implib_file_path_spec (ImportLibraryGenerator.mk "x86_64" "msvc"
    (some (3, 10))) "out").2.1 3 10 rfl

/-- C3: with no `ZIG_COMMAND` override, `find_for_target` implements exactly
the documented table: `(x86_64, gnu)` and `(x86, gnu)` yield the MinGW
flavor with the 64-bit and 32-bit prefixed program names; any architecture
with `msvc` yields `lib.exe` when the vendor archiver is found — attempted
only on a Windows host and only for `x86_64`, `x86`, `aarch64`, and never
found on a non-Windows host — and otherwise the LLVM flavor with program
`llvm-dlltool`; every other combination fails with the `UnsupportedTarget`
message naming the architecture and ABI. -/
theorem find_for_target_table (host : Host) (hz : host.zig_command = none) :
    DllToolCommand.find_for_target host "x86_64" "gnu"
      = Except.ok (DllToolCommand.mingw (Command.new DLLTOOL_GNU)) ∧
    DllToolCommand.find_for_target host "x86" "gnu"
      = Except.ok (DllToolCommand.mingw (Command.new DLLTOOL_GNU_32)) ∧
    (∀ arch c, find_lib_exe host arch = some c →
      DllToolCommand.find_for_target host arch "msvc"
        = Except.ok (DllToolCommand.libExe c (machineMsvc arch))) ∧
    (∀ arch, find_lib_exe host arch = none →
      DllToolCommand.find_for_target host arch "msvc"
        = Except.ok (DllToolCommand.llvm (Command.new DLLTOOL_MSVC)
            (machineLlvm arch))) ∧
    (host.windows = false → ∀ arch, find_lib_exe host arch = none) ∧
    (host.windows = true →
      find_lib_exe host "x86_64"
          = host.registry_find "x86_64-pc-windows-msvc" LIB_MSVC ∧
      find_lib_exe host "x86"
          = host.registry_find "i686-pc-windows-msvc" LIB_MSVC ∧
      find_lib_exe host "aarch64"
          = host.registry_find "aarch64-pc-windows-msvc" LIB_MSVC ∧
      ∀ arch, arch ≠ "x86_64" → arch ≠ "x86" → arch ≠ "aarch64" →
        find_lib_exe host arch = none) ∧
    (∀ arch env, (arch, env) ≠ ("x86_64", "gnu") → (arch, env) ≠ ("x86", "gnu") →
      env ≠ "msvc" →
      DllToolCommand.find_for_target host arch env
        = Except.error ⟨ErrorKind.other,
            String.append (String.append (String.append (String.append
              "Unsupported target arch '" arch) "' or env ABI '") env) "'"⟩) := by
  have hfz : find_zig host = none := by simp [find_zig, hz]
  refine ⟨?_, ?_, ?_, ?_, ?_, ?_, ?_⟩
  · unfold DllToolCommand.find_for_target
    rw [hfz]
    rfl
  · unfold DllToolCommand.find_for_target
    rw [hfz]
    rfl
  · intro arch c hfound
    unfold DllToolCommand.find_for_target
    simp only [hfz]
    rw [hfound]
  · intro arch hnone
    unfold DllToolCommand.find_for_target
    simp only [hfz]
    rw [hnone]
  · intro hw arch
    unfold find_lib_exe
    simp [hw]
  · intro hw
    refine ⟨by unfold find_lib_exe; simp [hw], by unfold find_lib_exe; simp [hw],
      by unfold find_lib_exe; simp [hw], fun arch h1 h2 h3 => ?_⟩
    unfold find_lib_exe
    simp only [hw, if_true]
  · intro arch env h1 h2 h3
    unfold DllToolCommand.find_for_target
    simp only [hfz]
    split
    · exact absurd rfl h1
    · exact absurd rfl h2
    · exact absurd rfl h3
    · rfl

/-- Witness for C3: on a plain non-Windows host, `(x86_64, gnu)` resolves
to the 64-bit MinGW dlltool and `(x86_64, msvc)` falls back to LLVM. -/
theorem find_for_target_table_witness :
    DllToolCommand.find_for_target hostPlain "x86_64" "gnu"
      = Except.ok (DllToolCommand.mingw (Command.new DLLTOOL_GNU)) ∧
    DllToolCommand.find_for_target hostPlain "x86_64" "msvc"
      = Except.ok (DllToolCommand.llvm (Command.new DLLTOOL_MSVC)
          (machineLlvm "x86_64")) :=
  ⟨(find_for_target_table hostPlain rfl).1,
    (find_for_target_table hostPlain rfl).2.2.2.1 "x86_64" rfl⟩

/-- C5: the definition lookup succeeds exactly for `None` and for `(3, m)`
with `m` in 7..11: `None` writes `python3.def` with the version-agnostic
blob, `(3, m)` writes `python3{m}.def` with the corresponding blob — the
returned filesystem gains exactly that path/content pair — and any other
version fails with the `UnsupportedVersion` error. -/
theorem write_def_file_supported (g : ImportLibraryGenerator)
    (out : FilePathStr) (fs : FS) :
    (g.version = none → g.write_def_file out fs
      = Except.ok (pathPush out "python3.def",
          fsWrite fs (pathPush out "python3.def") DefBlob.python3)) ∧
    (g.version = some (3, 7) → g.write_def_file out fs
      = Except.ok (pathPush out "python37.def",
          fsWrite fs (pathPush out "python37.def") DefBlob.python37)) ∧
    (g.version = some (3, 8) → g.write_def_file out fs
      = Except.ok (pathPush out "python38.def",
          fsWrite fs (pathPush out "python38.def") DefBlob.python38)) ∧
    (g.version = some (3, 9) → g.write_def_file out fs
      = Except.ok (pathPush out "python39.def",
          fsWrite fs (pathPush out "python39.def") DefBlob.python39)) ∧
    (g.version = some (3, 10) → g.write_def_file out fs
      = Except.ok (pathPush out "python310.def",
          fsWrite fs (pathPush out "python310.def") DefBlob.python310)) ∧
    (g.version = some (3, 11) → g.write_def_file out fs
      = Except.ok (pathPush out "python311.def",
          fsWrite fs (pathPush out "python311.def") DefBlob.python311)) ∧
    (g.version ∉ supportedVersions → g.write_def_file out fs
      = Except.error ⟨ErrorKind.other, "Unsupported Python version"⟩) := by
  refine ⟨fun hv => ?_, fun hv => ?_, fun hv => ?_, fun hv => ?_, fun hv => ?_,
    fun hv => ?_, fun hv => write_def_file_not_supported_aux g out fs hv⟩
  all_goals
    unfold ImportLibraryGenerator.write_def_file def_asset
    rw [hv]

/-- Witness for C5: version 3.10 on the empty filesystem writes exactly
`out/python310.def` with the 3.10 blob. -/
theorem write_def_file_supported_witness :
    (ImportLibraryGenerator.mk "x86_64" "msvc" (some (3, 10))).write_def_file
        "out" fsEmpty
      = Except.ok (pathPush "out" "python310.def",
          fsWrite fsEmpty (pathPush "out" "python310.def") DefBlob.python310) :=
  (write_def_file_supported (ImportLibraryGenerator.mk "x86_64" "msvc"
    (some (3, 10))) "out" fsEmpty).2.2.2.2.1 rfl

/-- C4 counterexample: the `UnsupportedVersion` error is the fixed pair
(kind `Other`, message `"Unsupported Python version"`); the requested
versions 3.99 and 3.98 produce identical errors, so the error does not
carry the requested version. -/
theorem write_def_file_version_not_carried_cex :
    (ImportLibraryGenerator.mk "x86_64" "gnu" (some (3, 99))).write_def_file
        "out" fsEmpty
      = Except.error ⟨ErrorKind.other, "Unsupported Python version"⟩ ∧
    (ImportLibraryGenerator.mk "x86_64" "gnu" (some (3, 99))).write_def_file
        "out" fsEmpty
      = (ImportLibraryGenerator.mk "x86_64" "gnu" (some (3, 98))).write_def_file
          "out" fsEmpty := ⟨rfl, rfl⟩

/-- C4 amended: every version outside the supported set fails with the
`UnsupportedVersion` error of kind `Other` and the fixed message
`"Unsupported Python version"`, which does not embed the requested
version. -/
theorem write_def_file_unsupported_version (g : ImportLibraryGenerator)
    (out : FilePathStr) (fs : FS) (h : g.version ∉ supportedVersions) :
    g.write_def_file out fs
      = Except.error ⟨ErrorKind.other, "Unsupported Python version"⟩ :=
  write_def_file_not_supported_aux g out fs h

/-- Witness for C4: version 3.99 is rejected with the fixed message. -/
theorem write_def_file_unsupported_version_witness :
    (ImportLibraryGenerator.mk "x86_64" "gnu" (some (3, 99))).write_def_file
        "out" fsEmpty
      = Except.error ⟨ErrorKind.other, "Unsupported Python version"⟩ :=
  write_def_file_unsupported_version (ImportLibraryGenerator.mk "x86_64" "gnu"
    (some (3, 99))) "out" fsEmpty (by decide)

/-- C1 counterexample: with architecture `x86_64` and environment ABI
`linux` (version absent) on a plain host, `generate` does fail with the
`UnsupportedTarget` error — but only after `python3.def` has already been
written into the output directory, so the claim that no definition file is
written is false at this input. -/
theorem generate_unsupported_target_def_file_cex :
    (ImportLibraryGenerator.mk "x86_64" "linux" none).generate hostPlain
        "out" fsEmpty
      = ⟨Except.error ⟨ErrorKind.other,
            "Unsupported target arch 'x86_64' or env ABI 'linux'"⟩,
          ⟨["out"], [(pathPush "out" "python3.def", DefBlob.python3)]⟩, []⟩ := by
  rfl

/-- C1 amended: with architecture `x86_64` and environment ABI `linux` and
no version, `generate` fails with `UnsupportedTarget`, never invokes a
tool, and mutates the filesystem by exactly the output-directory creation
plus the already-written `python3.def`; with version `(3, 99)` it fails
with `UnsupportedVersion` with no mutation beyond directory creation and
no tool invocation. -/
theorem generate_unsupported_inputs_amended (host : Host) (out : FilePathStr)
    (fs : FS) (hz : host.zig_command = none) :
    (ImportLibraryGenerator.mk "x86_64" "linux" none).generate host out fs
      = ⟨Except.error ⟨ErrorKind.other,
            "Unsupported target arch 'x86_64' or env ABI 'linux'"⟩,
          ⟨out :: fs.dirs,
            (pathPush out "python3.def", DefBlob.python3) :: fs.files⟩, []⟩ ∧
    ∀ arch env,
      (ImportLibraryGenerator.mk arch env (some (3, 99))).generate host out fs
        = ⟨Except.error ⟨ErrorKind.other, "Unsupported Python version"⟩,
            ⟨out :: fs.dirs, fs.files⟩, []⟩ := by
  have hfz : find_zig host = none := by simp [find_zig, hz]
  constructor
  · simp only [ImportLibraryGenerator.generate,
      ImportLibraryGenerator.write_def_file, def_asset,
      DllToolCommand.find_for_target, hfz]
    rfl
  · intro arch env
    have hm : (some (3, 99) : Option (Nat × Nat)) ∉ supportedVersions := by
      decide
    simp only [ImportLibraryGenerator.generate]
    rw [write_def_file_not_supported_aux (ImportLibraryGenerator.mk arch env
      (some (3, 99))) out (create_dir_all fs out) hm]
    rfl

/-- Witness for C1 amended: both scenarios evaluated on the plain host and
the empty filesystem. -/
theorem generate_unsupported_inputs_amended_witness :
    (ImportLibraryGenerator.mk "x86_64" "linux" none).generate hostPlain
        "out" fsEmpty
      = ⟨Except.error ⟨ErrorKind.other,
            "Unsupported target arch 'x86_64' or env ABI 'linux'"⟩,
          ⟨["out"], [(pathPush "out" "python3.def", DefBlob.python3)]⟩, []⟩ ∧
    (ImportLibraryGenerator.mk "mips" "linux" (some (3, 99))).generate
        hostPlain "out" fsEmpty
      = ⟨Except.error ⟨ErrorKind.other, "Unsupported Python version"⟩,
          ⟨["out"], []⟩, []⟩ :=
  have h := generate_unsupported_inputs_amended hostPlain "out" fsEmpty rfl
  ⟨h.1, h.2 "mips" "linux"⟩

/-- After a successful definition-file write and toolchain resolution,
`generate` is exactly the interpretation of one attempted invocation of
the built command. -/
theorem generate_resolved_aux (host : Host) (g : ImportLibraryGenerator)
    (out : FilePathStr) (fs : FS) (dp : FilePathStr) (fs2 : FS)
    (tc : DllToolCommand)
    (hw : g.write_def_file out (create_dir_all fs out) = Except.ok (dp, fs2))
    (hf : DllToolCommand.find_for_target host g.arch g.env = Except.ok tc) :
    g.generate host out fs
      = (match host.run (tc.build dp (g.implib_file_path out)) with
         | SpawnOutcome.startFailure e =>
           ⟨Except.error ⟨e.kind, String.append (String.append
               (commandDebug (tc.build dp (g.implib_file_path out)))
               " failed with ") e.display⟩, fs2,
             [tc.build dp (g.implib_file_path out)]⟩
         | SpawnOutcome.exited status =>
           if status.success then
             ⟨Except.ok (), fs2, [tc.build dp (g.implib_file_path out)]⟩
           else
             ⟨Except.error ⟨ErrorKind.other, String.append (String.append
                 (commandDebug (tc.build dp (g.implib_file_path out)))
                 " failed with ") status.display⟩, fs2,
               [tc.build dp (g.implib_file_path out)]⟩) := by
  simp only [ImportLibraryGenerator.generate, hw, hf]

/-- C9: after a successful definition-file write and toolchain resolution,
`generate` attempts exactly one child-process invocation — the built
command — and interprets its outcome: a failed start yields an error
preserving the OS error kind and embedding the rendered command line and
the OS error text; an unsuccessful exit status yields an `Other`-kind
error embedding the command line and the status; a successful exit status
is the one and only way `generate` returns success. -/
theorem generate_process_outcome (host : Host) (g : ImportLibraryGenerator)
    (out : FilePathStr) (fs : FS) (dp : FilePathStr) (fs2 : FS)
    (tc : DllToolCommand)
    (hw : g.write_def_file out (create_dir_all fs out) = Except.ok (dp, fs2))
    (hf : DllToolCommand.find_for_target host g.arch g.env = Except.ok tc) :
    (g.generate host out fs).spawned = [tc.build dp (g.implib_file_path out)] ∧
    (∀ e, host.run (tc.build dp (g.implib_file_path out))
        = SpawnOutcome.startFailure e →
      (g.generate host out fs).result = Except.error ⟨e.kind,
        String.append (String.append
          (commandDebug (tc.build dp (g.implib_file_path out)))
          " failed with ") e.display⟩) ∧
    (∀ st, host.run (tc.build dp (g.implib_file_path out))
        = SpawnOutcome.exited st → st.success = true →
      (g.generate host out fs).result = Except.ok ()) ∧
    (∀ st, host.run (tc.build dp (g.implib_file_path out))
        = SpawnOutcome.exited st → st.success = false →
      (g.generate host out fs).result = Except.error ⟨ErrorKind.other,
        String.append (String.append
          (commandDebug (tc.build dp (g.implib_file_path out)))
          " failed with ") st.display⟩) ∧
    ((g.generate host out fs).result = Except.ok () ↔
      ∃ st, host.run (tc.build dp (g.implib_file_path out))
          = SpawnOutcome.exited st ∧ st.success = true) := by
  have key := generate_resolved_aux host g out fs dp fs2 tc hw hf
  refine ⟨?_, ?_, ?_, ?_, ?_⟩
  · rw [key]
    rcases host.run (tc.build dp (g.implib_file_path out)) with e | st
    · rfl
    · by_cases hs : st.success = true <;> simp [hs]
  · intro e he
    rw [key, he]
  · intro st hst hs
    rw [key, hst]
    simp [hs]
  · intro st hst hs
    rw [key, hst]
    simp [hs]
  · rw [key]
    constructor
    · intro hok
      rcases hr : host.run (tc.build dp (g.implib_file_path out)) with e | st
      · rw [hr] at hok
        simp at hok
      · rw [hr] at hok
        by_cases hs : st.success = true
        · exact ⟨st, rfl, hs⟩
        · simp [hs] at hok
    · rintro ⟨st, hst, hs⟩
      rw [hst]
      simp [hs]

/-- Witness for C9: the `(x86_64, gnu)` target on the plain host — whose
every spawn exits successfully — attempts exactly the built MinGW command
and returns success. -/
theorem generate_process_outcome_witness :
    ((ImportLibraryGenerator.mk "x86_64" "gnu" none).generate hostPlain
        "out" fsEmpty).spawned
      = [(DllToolCommand.mingw (Command.new DLLTOOL_GNU)).build
          (pathPush "out" "python3.def")
          ((ImportLibraryGenerator.mk "x86_64" "gnu" none).implib_file_path
            "out")] ∧
    ((ImportLibraryGenerator.mk "x86_64" "gnu" none).generate hostPlain
        "out" fsEmpty).result = Except.ok () :=
  have h := generate_process_outcome hostPlain
    (ImportLibraryGenerator.mk "x86_64" "gnu" none) "out" fsEmpty
    (pathPush "out" "python3.def")
    ⟨["out"], [(pathPush "out" "python3.def", DefBlob.python3)]⟩
    (DllToolCommand.mingw (Command.new DLLTOOL_GNU)) rfl rfl
  ⟨h.1, h.2.2.1 ⟨true, "exit status: 0"⟩ rfl rfl⟩
